import Mathlib

/- Verification of the alarm data model in
   src/ros_alarms/include/alarm_proxy.hpp (struct AlarmProxy). -/

namespace RosAlarms

/-- Modelled from the spec: the generated ROS message type `ros_alarms::Alarm`
(its `.msg` definition is not under `src/`). Per the spec's wire-message shape
it is a record with exactly the fields `alarm_name`, `raised`, `node_name`,
`problem_description`, `parameters`, `severity` (an unsigned 8-bit integer).
Severity is embedded as a `Nat`; the 8-bit width enters as `< 256` bounds
where a claim mentions it. -/
structure Alarm where
  alarm_name : String
  raised : Bool
  node_name : String
  problem_description : String
  parameters : String
  severity : Nat
  deriving DecidableEq, Repr

/-- The members of `struct AlarmProxy`, in declaration order:
`std::string alarm_name; bool raised; std::string node_name;
std::string problem_description; std::string json_parameters;
uint8_t severity;`. -/
structure AlarmProxy where
  alarm_name : String
  raised : Bool
  node_name : String
  problem_description : String
  json_parameters : String
  severity : Nat
  deriving DecidableEq, Repr

/-- The indeterminate contents of the scalar members `raised` (`bool`) and
`severity` (`uint8_t`) of an `AlarmProxy` whose constructor body never writes
them: in C++ these members are default-initialized to indeterminate values.
The embedding makes that nondeterminism an explicit parameter. -/
structure UninitScalars where
  raised0 : Bool
  severity0 : Nat
  deriving DecidableEq, Repr

/-- The full-form constructor
`AlarmProxy(alarm_name, raised, node_name, problem_description,
json_parameters, severity)`. Before the body runs, the `std::string` members
are default-constructed to `""` and the `bool` and `uint8_t` members are
default-initialized to indeterminate values, modelled by `u` (the `uint8_t`
still holds some byte, hence `% 256`). Each statement of the body assigns a
constructor parameter to itself — the parameter shadows the member of the
same name — so no member is ever written. -/
def AlarmProxy.mkFull (u : UninitScalars) (alarm_name : String) (raised : Bool)
    (node_name : String) (problem_description : String)
    (json_parameters : String) (severity : Nat) : AlarmProxy :=
  let self : AlarmProxy :=
    { alarm_name := "", raised := u.raised0, node_name := "",
      problem_description := "", json_parameters := "",
      severity := u.severity0 % 256 }
  let alarm_name := alarm_name
  let raised := raised
  let node_name := node_name
  let problem_description := problem_description
  let json_parameters := json_parameters
  let severity := severity
  self

/-- The implicit-reporter constructor
`AlarmProxy(alarm_name, raised, problem_description, json_parameters,
severity)`. Its body is
`*this = AlarmProxy(alarm_name, raised, ros::this_node::getName(),
problem_description, json_parameters, severity);` — every member of `*this`
is overwritten by copy-assignment from the temporary built by the full form
(whose own indeterminate scalars are `u`). The external process-identity
provider `ros::this_node::getName()` is an injected collaborator, passed in
as `thisNodeName`. -/
def AlarmProxy.mkImplicit (u : UninitScalars) (thisNodeName : String)
    (alarm_name : String) (raised : Bool) (problem_description : String)
    (json_parameters : String) (severity : Nat) : AlarmProxy :=
  AlarmProxy.mkFull u alarm_name raised thisNodeName problem_description
    json_parameters severity

/-- The from-wire constructor `AlarmProxy(ros_alarms::Alarm msg)`: its body
assigns every member from the corresponding field of `msg`
(`alarm_name = msg.alarm_name; raised = msg.raised;
node_name = msg.node_name; problem_description = msg.problem_description;
json_parameters = msg.parameters; severity = msg.severity;`), so the
default-initialized values are all overwritten. -/
def AlarmProxy.fromMsg (msg : Alarm) : AlarmProxy :=
  { alarm_name := msg.alarm_name
    raised := msg.raised
    node_name := msg.node_name
    problem_description := msg.problem_description
    json_parameters := msg.parameters
    severity := msg.severity }

/-- The member function `ros_alarms::Alarm as_msg()`, in state-passing form:
it returns the built message together with the post-state of the receiver.
The body declares `ros_alarms::Alarm a;` (value-initialized: empty strings,
`false`, `0`), assigns each of its fields from a member of `*this`
(`a.node_name = node_name; a.parameters = json_parameters;` etc., reading
only), and returns `a`; no statement writes a member of `*this`. -/
def AlarmProxy.as_msgState (self : AlarmProxy) : Alarm × AlarmProxy :=
  let a : Alarm := ⟨"", false, "", "", "", 0⟩
  let a := { a with alarm_name := self.alarm_name }
  let a := { a with raised := self.raised }
  let a := { a with node_name := self.node_name }
  let a := { a with problem_description := self.problem_description }
  let a := { a with parameters := self.json_parameters }
  let a := { a with severity := self.severity }
  (a, self)

/-- The value returned by `as_msg()`. -/
def AlarmProxy.as_msg (self : AlarmProxy) : Alarm :=
  self.as_msgState.1

/-- A sequence of `n` successive `as_msg()` calls on an instance (the only
operation the type offers on an already-constructed instance), threading the
receiver state through each call. -/
def AlarmProxy.runCalls (e : AlarmProxy) : Nat → AlarmProxy
  | 0 => e
  | n + 1 => (AlarmProxy.runCalls e n).as_msgState.2

/-- C1: the claim says the full-form constructor produces a value whose six
fields are exactly the supplied values. The code contradicts it: evaluated at
the scenario input (with indeterminate scalars `⟨false, 0⟩`), every string
member of the result is `""`, `raised` is the indeterminate `false` and
`severity` the indeterminate `0`; in particular `alarm_name` is not
`"battery-low"`. -/
theorem c1_mkFull_ignores_arguments :
    AlarmProxy.mkFull ⟨false, 0⟩ "battery-low" true "node-42"
      "cell voltage under threshold" "\x7b\"cell\":3,\"volts\":2.9\x7d" 200 =
      { alarm_name := "", raised := false, node_name := "",
        problem_description := "", json_parameters := "", severity := 0 } ∧
    (AlarmProxy.mkFull ⟨false, 0⟩ "battery-low" true "node-42"
      "cell voltage under threshold" "\x7b\"cell\":3,\"volts\":2.9\x7d"
      200).alarm_name ≠ "battery-low" := by
  exact ⟨rfl, by decide⟩

/-- C2: the claim says constructing the scenario value with the full form,
converting to wire and back reproduces all six field values, including
`severity == 200` and `raised == true`. The code contradicts it: the
full-form constructor already drops the arguments, so the round-tripped
value (with indeterminate scalars `⟨false, 0⟩`) has `severity = 0`,
`raised = false` and `alarm_name = ""`. -/
theorem c2_scenario_roundtrip_fails :
    (AlarmProxy.fromMsg (AlarmProxy.mkFull ⟨false, 0⟩ "battery-low" true
      "node-42" "cell voltage under threshold"
      "\x7b\"cell\":3,\"volts\":2.9\x7d" 200).as_msg).severity ≠ 200 ∧
    (AlarmProxy.fromMsg (AlarmProxy.mkFull ⟨false, 0⟩ "battery-low" true
      "node-42" "cell voltage under threshold"
      "\x7b\"cell\":3,\"volts\":2.9\x7d" 200).as_msg).raised ≠ true ∧
    (AlarmProxy.fromMsg (AlarmProxy.mkFull ⟨false, 0⟩ "battery-low" true
      "node-42" "cell voltage under threshold"
      "\x7b\"cell\":3,\"volts\":2.9\x7d" 200).as_msg).alarm_name ≠
      "battery-low" := by
  exact ⟨by decide, by decide, by decide⟩

/-- C3: round-trip law. For every `AlarmProxy` value `e`,
`fromMsg (as_msg e) = e`, and for every wire message `m`,
`as_msg (fromMsg m) = m`, field by field. -/
theorem c3_roundtrip (e : AlarmProxy) (m : Alarm) :
    AlarmProxy.fromMsg e.as_msg = e ∧ (AlarmProxy.fromMsg m).as_msg = m :=
  ⟨rfl, rfl⟩

/-- C4: field mapping of `as_msg`: the wire `node_name` carries the
reporter identity (the member the spec calls `reporter_id` is the member
`node_name` of `AlarmProxy`), wire `problem_description` carries the
description, wire `parameters` carries `json_parameters`, and `alarm_name`,
`raised`, `severity` are copied unchanged. -/
theorem c4_as_msg_field_mapping (e : AlarmProxy) :
    e.as_msg.node_name = e.node_name ∧
    e.as_msg.problem_description = e.problem_description ∧
    e.as_msg.alarm_name = e.alarm_name ∧
    e.as_msg.raised = e.raised ∧
    e.as_msg.parameters = e.json_parameters ∧
    e.as_msg.severity = e.severity :=
  ⟨rfl, rfl, rfl, rfl, rfl, rfl⟩

/-- C5: field mapping of the from-wire constructor: wire `node_name` maps to
the reporter member (`node_name` of `AlarmProxy`), wire `problem_description`
to `problem_description`, wire `parameters` to `json_parameters`, and
`alarm_name`, `raised`, `severity` are copied unchanged. -/
theorem c5_fromMsg_field_mapping (m : Alarm) :
    (AlarmProxy.fromMsg m).node_name = m.node_name ∧
    (AlarmProxy.fromMsg m).problem_description = m.problem_description ∧
    (AlarmProxy.fromMsg m).json_parameters = m.parameters ∧
    (AlarmProxy.fromMsg m).alarm_name = m.alarm_name ∧
    (AlarmProxy.fromMsg m).raised = m.raised ∧
    (AlarmProxy.fromMsg m).severity = m.severity :=
  ⟨rfl, rfl, rfl, rfl, rfl, rfl⟩

/-- C6: implicit-reporter equivalence: for every input tuple, every value `p`
of the process-identity provider and every indeterminate-scalar state `u`,
the implicit-reporter constructor yields exactly the value the full form
yields with the reporter argument set to `p` (the body delegates to the full
form). -/
theorem c6_implicit_reporter_equiv (u : UninitScalars) (p : String)
    (alarm_name : String) (raised : Bool) (problem_description : String)
    (json_parameters : String) (severity : Nat) :
    AlarmProxy.mkImplicit u p alarm_name raised problem_description
      json_parameters severity =
    AlarmProxy.mkFull u alarm_name raised p problem_description
      json_parameters severity :=
  rfl

/-- C7: totality. For any strings (empty or non-ASCII included), any boolean
and any 8-bit severity value, each of the three constructors and the to-wire
conversion produces a result, and the severity of each result is again
representable in 8 bits. -/
theorem c7_totality (u : UninitScalars) (name nodeName desc params p : String)
    (r : Bool) (sev : Nat) (hsev : sev < 256) :
    (∃ a, AlarmProxy.mkFull u name r nodeName desc params sev = a ∧
      a.severity < 256) ∧
    (∃ a, AlarmProxy.mkImplicit u p name r desc params sev = a) ∧
    (∃ a, AlarmProxy.fromMsg ⟨name, r, nodeName, desc, params, sev⟩ = a ∧
      a.severity < 256) ∧
    (∃ m, (AlarmProxy.fromMsg ⟨name, r, nodeName, desc, params, sev⟩).as_msg
      = m ∧ m.severity < 256) :=
  ⟨⟨_, rfl, Nat.mod_lt _ (by decide)⟩, ⟨_, rfl⟩, ⟨_, rfl, hsev⟩,
    ⟨_, rfl, hsev⟩⟩

/-- C7 witness: the totality theorem applied to boundary inputs — severity
255, empty strings, a non-ASCII alarm name and an indeterminate scalar state
whose byte value exceeds 255 before reduction. -/
theorem c7_totality_witness :
    (∃ a, AlarmProxy.mkFull ⟨true, 300⟩ "警报△" true "node-∅" "" "" 255 = a ∧
      a.severity < 256) ∧
    (∃ a, AlarmProxy.mkImplicit ⟨true, 300⟩ "/self" "警报△" true "" "" 255
      = a) ∧
    (∃ a, AlarmProxy.fromMsg ⟨"警报△", true, "node-∅", "", "", 255⟩ = a ∧
      a.severity < 256) ∧
    (∃ m, (AlarmProxy.fromMsg
      ⟨"警报△", true, "node-∅", "", "", 255⟩).as_msg = m ∧
      m.severity < 256) :=
  c7_totality ⟨true, 300⟩ "警报△" "node-∅" "" "" "/self" true 255 (by decide)

/-- C8: `as_msg` is pure with respect to its receiver: in the state-passing
embedding of the member function, the post-state of the receiver is the
receiver itself, and the returned message is the `as_msg` value. -/
theorem c8_as_msg_pure (e : AlarmProxy) :
    e.as_msgState.2 = e ∧ e.as_msgState.1 = e.as_msg :=
  ⟨rfl, rfl⟩

/-- C9: immutability: after any sequence of operations on a constructed
instance (any number of `as_msg` calls — the only operation offered on an
existing instance), the instance equals its original value, so two reads of
any field before and after the sequence agree. -/
theorem c9_immutability (e : AlarmProxy) (n : Nat) :
    AlarmProxy.runCalls e n = e := by
  induction n with
  | zero => rfl
  | succ k ih => simpa [AlarmProxy.runCalls, AlarmProxy.as_msgState] using ih

/-- C10: for every input tuple and every indeterminate-scalar state, the four
string members of the value built by the full-form constructor are the empty
string, independent of the argument values, because the constructor body
assigns each parameter to itself and never writes the members. -/
theorem c10_mkFull_string_fields_empty (u : UninitScalars)
    (alarm_name : String) (raised : Bool) (node_name : String)
    (problem_description : String) (json_parameters : String)
    (severity : Nat) :
    (AlarmProxy.mkFull u alarm_name raised node_name problem_description
      json_parameters severity).alarm_name = "" ∧
    (AlarmProxy.mkFull u alarm_name raised node_name problem_description
      json_parameters severity).node_name = "" ∧
    (AlarmProxy.mkFull u alarm_name raised node_name problem_description
      json_parameters severity).problem_description = "" ∧
    (AlarmProxy.mkFull u alarm_name raised node_name problem_description
      json_parameters severity).json_parameters = "" :=
  ⟨rfl, rfl, rfl, rfl⟩

end RosAlarms
